import Mathlib

/-!
Shallow embedding of the tcp_chat server session actor (src/session.rs) and
the console client harness (src/client.rs).

Time is modelled in whole seconds as `Nat` (the source compares
`Instant::now().duration_since(self.hb)` against `Duration::new(10, 0)`;
`duration_since` saturates at zero, matching truncated `Nat` subtraction).
Side effects are made explicit: messages sent to the `ChatServer` registry
actor and frames written to the peer through the framed writer are returned
as lists, in program order.
-/

namespace TcpChat

/-- Requests decoded from the peer, as consumed in `session.rs` and produced
in `client.rs` (`ChatRequest` in the codec module; variants `List`,
`Join(String)`, `Message(String)`, `Ping`). -/
inductive ChatRequest where
  | list
  | join (name : String)
  | message (text : String)
  | ping
deriving DecidableEq, Repr

/-- Responses written to the peer (`ChatResponse` in the codec module;
variants `Message(String)`, `Joined(String)`, `Rooms(Vec<String>)`, `Ping`,
as constructed in `session.rs` and matched in `client.rs`). -/
inductive ChatResponse where
  | message (text : String)
  | joined (name : String)
  | rooms (names : List String)
  | ping
deriving DecidableEq, Repr

/-- Messages a session sends to the `ChatServer` registry actor
(`server::Connect`, `server::Disconnect`, `server::Join`, `server::Message`,
`server::ListRooms`, as used from `session.rs`). -/
inductive RegistryMsg where
  | connect
  | disconnect (id : Nat)
  | join (id : Nat) (name : String)
  | message (id : Nat) (msg : String) (room : String)
  | listRooms
deriving DecidableEq, Repr

/-- The state a `ChatSession` actor owns (`session.rs` lines 21-32): the
session id, the instant of the last inbound heartbeat, and the joined room.
`stopped` models the actor context's stop flag set by `ctx.stop()` (the
`addr` and `framed` handles are represented by the explicit effect lists
below rather than stored). -/
structure ChatSession where
  id : Nat
  hb : Nat
  room : String
  stopped : Bool
deriving DecidableEq, Repr

/-- Constructor `ChatSession::new` (`session.rs` lines 131-142): id starts at the
sentinel 0, `hb` at the current instant, room at "Main". -/
def ChatSession.new (now : Nat) : ChatSession :=
  { id := 0, hb := now, room := "Main", stopped := false }

/-- Effects of one handler run: registry messages sent (via `do_send` or
`send`) and response frames written via `self.framed.write`, each in program
order. -/
structure Effects where
  sends : List RegistryMsg
  writes : List ChatResponse
deriving DecidableEq, Repr

/-- The continuation of the `server::Connect` round-trip inside
`Actor::started` (`session.rs` lines 52-59): on `Ok(res)` store the id,
otherwise `ctx.stop()`. -/
def connectReplyCont (s : ChatSession) (res : Option Nat) : ChatSession :=
  match res with
  | some n => { s with id := n }
  | none => { s with stopped := true }

/-- Startup hook `Actor::started` (`session.rs` lines 39-61) with its awaited `Connect`
round-trip already resolved to `res`: it sends `server::Connect` and runs
`connectReplyCont` on the reply before any other event is processed (the
future is registered with `.wait(ctx)`). -/
def startedStep (now : Nat) (res : Option Nat) : List RegistryMsg × ChatSession :=
  ([RegistryMsg.connect], connectReplyCont (ChatSession.new now) res)

/-- Shutdown hook `Actor::stopping` (`session.rs` lines 63-67): notify the chat server
with `server::Disconnect { id: self.id }`. -/
def stoppingEffects (s : ChatSession) : Effects :=
  { sends := [RegistryMsg.disconnect s.id], writes := [] }

/-- The continuation of the `server::ListRooms` round-trip inside the `List`
arm (`session.rs` lines 83-91): on `Ok(rooms)` write `Rooms(rooms)` to the
peer; on failure only `println!("Something went wrong")`. -/
def listReplyCont (s : ChatSession) (res : Option (List String)) :
    ChatSession × Effects :=
  match res with
  | some rooms => (s, { sends := [], writes := [ChatResponse.rooms rooms] })
  | none => (s, { sends := [], writes := [] })

/-- The body of `StreamHandler::handle` (`session.rs` lines 75-117). The
inbound item is `none` for `Err(_)` (a decode failure) and `some req` for
`Ok(req)`; `now` is `Instant::now()` at the `Ping` arm. The returned `Bool`
is true when the handler registered a registry round-trip with `.wait(ctx)`
(only the `List` arm does; its continuation is `listReplyCont`). -/
def handleFrame (now : Nat) (s : ChatSession) (msg : Option ChatRequest) :
    ChatSession × Effects × Bool :=
  match msg with
  | some ChatRequest.list =>
      (s, { sends := [RegistryMsg.listRooms], writes := [] }, true)
  | some (ChatRequest.join name) =>
      ({ s with room := name },
       { sends := [RegistryMsg.join s.id name],
         writes := [ChatResponse.joined name] },
       false)
  | some (ChatRequest.message m) =>
      (s, { sends := [RegistryMsg.message s.id m s.room], writes := [] }, false)
  | some ChatRequest.ping =>
      ({ s with hb := now }, { sends := [], writes := [] }, false)
  | none =>
      ({ s with stopped := true }, { sends := [], writes := [] }, false)

/-- The body of the `run_interval` closure in `ChatSession::hb`
(`session.rs` lines 146-160), run at instant `now`: when more than 10
seconds have elapsed since `self.hb`, send `server::Disconnect` and
`ctx.stop()`; the `framed.write(ChatResponse::Ping)` that follows the `if`
is unconditional and runs in both cases. -/
def hbTick (now : Nat) (s : ChatSession) : ChatSession × Effects :=
  if 10 < now - s.hb then
    ({ s with stopped := true },
     { sends := [RegistryMsg.disconnect s.id], writes := [ChatResponse.ping] })
  else
    (s, { sends := [], writes := [ChatResponse.ping] })

end TcpChat

namespace TcpChat

/-! ## Client harness (src/client.rs) -/

/-- Drop leading whitespace characters from a character list. -/
def dropWhileWs : List Char → List Char
  | [] => []
  | c :: cs => if c.isWhitespace then dropWhileWs cs else c :: cs

/-- Rust `str::trim`: the string with leading and trailing whitespace
removed. -/
def rustTrim (s : String) : String :=
  String.mk ((dropWhileWs (dropWhileWs s.data).reverse).reverse)

/-- Rust `str::starts_with('/')` specialised to a single-character pattern. -/
def startsWithChar (s : String) (c : Char) : Bool :=
  match s.data with
  | [] => false
  | a :: _ => a = c

/-- Worker for `splitn2`: scan for the first space, accumulating the first
part in reverse. -/
def splitn2Aux (acc : List Char) : List Char → List String
  | [] => [String.mk acc.reverse]
  | c :: cs =>
      if c = ' ' then [String.mk acc.reverse, String.mk cs]
      else splitn2Aux (c :: acc) cs

/-- Rust `str::splitn(2, ' ')`: the part before the first space, and the
untouched remainder after it (absent when the string has no space). -/
def splitn2 (m : String) : List String :=
  splitn2Aux [] m.data

/-- Console handler `Handler<ClientCommand>::handle` (`client.rs` lines 88-112): trim the
console line; an empty line does nothing; a line starting with `/` is split
with `splitn(2, ' ')` and dispatched on its first word (`/list`, `/join`
with a mandatory argument, otherwise an error print); any other line is sent
as `Message`. Returns the frames written to the wire and the lines printed
to the console. -/
def clientCommand (cmd : String) : List ChatRequest × List String :=
  let m := rustTrim cmd
  if m.data.isEmpty then ([], [])
  else if startsWithChar m '/' then
    let v := splitn2 m
    if v.headD "" = "/list" then ([ChatRequest.list], [])
    else if v.headD "" = "/join" then
      if v.length = 2 then ([ChatRequest.join (v.getD 1 "")], [])
      else ([], ["!!! room name is required"])
    else ([], ["!!! unkown command"])
  else ([ChatRequest.message m], [])

/-- The client's `StreamHandler::handle` (`client.rs` lines 117-135): print
`Message`, `Joined` and `Rooms` responses; every other inbound item — which
includes `Ok(ChatResponse::Ping)` as well as decode errors (`none` here) —
falls to the catch-all arm and calls `ctx.stop()`. Returns the printed lines
and whether the actor was stopped. -/
def clientHandleResponse (msg : Option ChatResponse) : List String × Bool :=
  match msg with
  | some (ChatResponse.message m) => (["message: " ++ m], false)
  | some (ChatResponse.joined m) => (["!!! joined: " ++ m], false)
  | some (ChatResponse.rooms rooms) =>
      (["\n!!! Available rooms."] ++ rooms ++ [""], false)
  | _ => ([], true)

end TcpChat

namespace TcpChat

/-! ## The session event loop

The scheduling discipline below is the one the actix runtime gives the
session actor; it is not itself code under src/. -/

/-- An event delivered to the session actor's context: an inbound frame from
the framed reader (with the instant it is handled), or a firing of the
1-second heartbeat interval. -/
inductive Event where
  | frame (now : Nat) (msg : Option ChatRequest)
  | tick (now : Nat)
deriving DecidableEq, Repr

/-- One processed step of the session actor, recorded in order. -/
inductive Action where
  | procFrame (now : Nat) (msg : Option ChatRequest)
  | procTick (now : Nat)
  | procListReply (res : Option (List String))
deriving DecidableEq, Repr

/-- Modelled from the spec: the actix event loop serving one session, which
is not part of this repository's source. Per the spec (and the comment at
`session.rs` line 93), a `ListRooms` round-trip registered with `.wait(ctx)`
pauses all event processing — further inbound frames and heartbeat ticks
included — until its reply arrives; replies are supplied by `replies`, and a
missing reply leaves the session suspended forever. A stopped actor
processes nothing further. Returns the trace of processed steps and the
final state. -/
def runEvents (s : ChatSession) (replies : List (Option (List String))) :
    List Event → List Action × ChatSession
  | [] => ([], s)
  | e :: rest =>
      if s.stopped then ([], s)
      else
        match e with
        | Event.tick now =>
            let s1 := (hbTick now s).1
            let p := runEvents s1 replies rest
            (Action.procTick now :: p.1, p.2)
        | Event.frame now msg =>
            let r := handleFrame now s msg
            if r.2.2 then
              match replies with
              | [] => ([Action.procFrame now msg], r.1)
              | res :: rs =>
                  let s2 := (listReplyCont r.1 res).1
                  let p := runEvents s2 rs rest
                  (Action.procFrame now msg :: Action.procListReply res :: p.1,
                   p.2)
            else
              let p := runEvents r.1 replies rest
              (Action.procFrame now msg :: p.1, p.2)

/-- Modelled from the spec: a whole session run — `Actor::started` sends
`Connect` and consumes its reply before any other event (the future is
registered with `.wait(ctx)`), then the event loop runs. -/
def sessionRun (now : Nat) (res : Option Nat)
    (replies : List (Option (List String))) (events : List Event) :
    List Action × ChatSession :=
  runEvents (startedStep now res).2 replies events

/-- The inbound frames among a trace's processed steps, in order. -/
def processedFrames : List Action → List (Option ChatRequest)
  | [] => []
  | Action.procFrame _ msg :: rest => msg :: processedFrames rest
  | _ :: rest => processedFrames rest

/-- The inbound frames among a list of events, in arrival order. -/
def eventFrames : List Event → List (Option ChatRequest)
  | [] => []
  | Event.frame _ msg :: rest => msg :: eventFrames rest
  | _ :: rest => eventFrames rest

/-- Holds when every processed `List` frame in a trace is followed
immediately by the registry reply (or by nothing, when the session is left
suspended): no other step is processed while the query is outstanding. -/
def listDeferredOk : List Action → Bool
  | [] => true
  | Action.procFrame _ (some ChatRequest.list) :: rest =>
      (match rest with
       | [] => true
       | Action.procListReply _ :: _ => true
       | _ => false) && listDeferredOk rest
  | _ :: rest => listDeferredOk rest

/-- Boolean ordered-prefix test on frame sequences. -/
def framesPrefix : List (Option ChatRequest) → List (Option ChatRequest) → Bool
  | [], _ => true
  | _ :: _, [] => false
  | a :: as, b :: bs => a == b && framesPrefix as bs

theorem framesPrefix_nil (l : List (Option ChatRequest)) :
    framesPrefix [] l = true := by
  cases l <;> rfl

theorem framesPrefix_cons (a : Option ChatRequest)
    (as bs : List (Option ChatRequest)) (h : framesPrefix as bs = true) :
    framesPrefix (a :: as) (a :: bs) = true := by
  simp [framesPrefix, h]

/-- The frames a run processes form an in-order prefix of the frames that
arrived, whatever the initial state and however the registry replies. -/
theorem processedFrames_framesPrefix (events : List Event) :
    ∀ (s : ChatSession) (replies : List (Option (List String))),
      framesPrefix (processedFrames (runEvents s replies events).1)
        (eventFrames events) = true := by
  induction events with
  | nil =>
      intro s replies
      simp [runEvents, processedFrames, framesPrefix]
  | cons e rest ih =>
      intro s replies
      by_cases hs : s.stopped
      · simp [runEvents, hs, processedFrames, framesPrefix_nil]
      · cases e with
        | tick now =>
            simpa [runEvents, hs, processedFrames, eventFrames] using ih _ replies
        | frame now msg =>
            cases msg with
            | none =>
                simp only [runEvents, hs, handleFrame, if_false, Bool.false_eq_true,
                  ite_false, eventFrames, processedFrames]
                exact framesPrefix_cons _ _ _ (ih _ replies)
            | some req =>
                cases req with
                | list =>
                    cases replies with
                    | nil =>
                        simp only [runEvents, hs, handleFrame, ite_false,
                          eventFrames, processedFrames]
                        exact framesPrefix_cons _ _ _ (framesPrefix_nil _)
                    | cons res rs =>
                        simp only [runEvents, hs, handleFrame, ite_false,
                          eventFrames, processedFrames]
                        exact framesPrefix_cons _ _ _ (ih _ rs)
                | join name =>
                    simp only [runEvents, hs, handleFrame, ite_false,
                      eventFrames, processedFrames]
                    exact framesPrefix_cons _ _ _ (ih _ replies)
                | message m =>
                    simp only [runEvents, hs, handleFrame, ite_false,
                      eventFrames, processedFrames]
                    exact framesPrefix_cons _ _ _ (ih _ replies)
                | ping =>
                    simp only [runEvents, hs, handleFrame, ite_false,
                      eventFrames, processedFrames]
                    exact framesPrefix_cons _ _ _ (ih _ replies)

/-- Every `List` frame a run processes is followed immediately by the
registry reply (or ends the trace): nothing else is processed while the
query is outstanding. -/
theorem listDeferredOk_runEvents (events : List Event) :
    ∀ (s : ChatSession) (replies : List (Option (List String))),
      listDeferredOk (runEvents s replies events).1 = true := by
  induction events with
  | nil => intro s replies; simp [runEvents, listDeferredOk]
  | cons e rest ih =>
      intro s replies
      by_cases hs : s.stopped
      · simp [runEvents, hs, listDeferredOk]
      · cases e with
        | tick now =>
            simpa [runEvents, hs, listDeferredOk] using ih _ replies
        | frame now msg =>
            cases msg with
            | none =>
                simpa [runEvents, hs, handleFrame, listDeferredOk] using
                  ih _ replies
            | some req =>
                cases req with
                | list =>
                    cases replies with
                    | nil => simp [runEvents, hs, handleFrame, listDeferredOk]
                    | cons res rs =>
                        simpa [runEvents, hs, handleFrame, listDeferredOk] using
                          ih _ rs
                | join name =>
                    simpa [runEvents, hs, handleFrame, listDeferredOk] using
                      ih _ replies
                | message m =>
                    simpa [runEvents, hs, handleFrame, listDeferredOk] using
                      ih _ replies
                | ping =>
                    simpa [runEvents, hs, handleFrame, listDeferredOk] using
                      ih _ replies

end TcpChat

namespace TcpChat

/-! ## Claims -/

/-- C1: counterexample — at a heartbeat firing where the timeout has
expired (last liveness signal at instant 0, firing at 11), the session
stops and notifies disconnect but still writes the outbound `Ping`, which
the claim allows only in the non-timed-out case. -/
theorem hbTick_pings_after_timeout_cex :
    10 < 11 - ({ id := 5, hb := 0, room := "Main", stopped := false } : ChatSession).hb ∧
    (hbTick 11 { id := 5, hb := 0, room := "Main", stopped := false }).1.stopped = true ∧
    (hbTick 11 { id := 5, hb := 0, room := "Main", stopped := false }).2.writes
      = [ChatResponse.ping] := by
  decide

/-- C1 (amended): at each firing of the liveness check at instant `now`: if
more than 10 seconds have elapsed since the peer's last inbound liveness
signal, the session sends `Disconnect` to the registry and stops, and
otherwise it neither notifies nor changes state; the outbound `Ping` is
written at every firing, the timed-out one included. -/
theorem hbTick_firing_spec (now : Nat) (s : ChatSession) :
    (hbTick now s).2.writes = [ChatResponse.ping] ∧
    (10 < now - s.hb →
      (hbTick now s).2.sends = [RegistryMsg.disconnect s.id] ∧
      (hbTick now s).1.stopped = true) ∧
    (¬ 10 < now - s.hb →
      (hbTick now s).2.sends = [] ∧ (hbTick now s).1 = s) := by
  by_cases h : 10 < now - s.hb <;> simp [hbTick, h]

/-- Witness for `hbTick_firing_spec` at a timed-out firing. -/
theorem hbTick_firing_spec_witness :
    (hbTick 20 { id := 7, hb := 0, room := "Main", stopped := false }).2.sends
        = [RegistryMsg.disconnect 7] ∧
    (hbTick 20 { id := 7, hb := 0, room := "Main", stopped := false }).1.stopped = true :=
  (hbTick_firing_spec 20 { id := 7, hb := 0, room := "Main", stopped := false }).2.1
    (by decide)

/-- C2: counterexample — when the `ListRooms` round-trip fails, the session
that observed it does not stop and sends nothing to the registry: registry
unavailability for a query is not fatal to the session, contrary to the
claim. -/
theorem list_failure_not_fatal_cex :
    (listReplyCont { id := 3, hb := 0, room := "Main", stopped := false } none).1.stopped
        = false ∧
    (listReplyCont { id := 3, hb := 0, room := "Main", stopped := false } none).2
        = { sends := [], writes := [] } := by
  decide

/-- C2 (amended): if the `ListRooms` round-trip fails, the session only
logs and continues — its state is unchanged, nothing is sent to the
registry and nothing is written to the peer; on success it writes the room
listing to the peer. -/
theorem listReply_spec (s : ChatSession) (res : Option (List String)) :
    (listReplyCont s res).1 = s ∧
    (listReplyCont s res).2.sends = [] ∧
    (res = none → (listReplyCont s res).2.writes = []) ∧
    (∀ rooms, res = some rooms →
      (listReplyCont s res).2.writes = [ChatResponse.rooms rooms]) := by
  cases res <;> simp [listReplyCont]

/-- Witness for `listReply_spec` at a failed round-trip. -/
theorem listReply_spec_witness :
    (listReplyCont { id := 3, hb := 0, room := "Main", stopped := false } none).2.writes
      = [] :=
  (listReply_spec { id := 3, hb := 0, room := "Main", stopped := false } none).2.2.1 rfl

/-- C3: within one session run, while a `List` query is outstanding no
further step is processed before its reply (the reply immediately follows
the `List` frame in every trace, or the trace ends there with the session
suspended), and the processed inbound frames always form an in-order prefix
of the frames that arrived. -/
theorem list_query_defers_frames (s : ChatSession)
    (replies : List (Option (List String))) (events : List Event) :
    listDeferredOk (runEvents s replies events).1 = true ∧
    framesPrefix (processedFrames (runEvents s replies events).1)
      (eventFrames events) = true :=
  ⟨listDeferredOk_runEvents events s replies,
   processedFrames_framesPrefix events s replies⟩

/-- C4: a decoded `Join(name)` request sets the current room to `name`,
fires `server::Join` for this session's id without waiting for any reply,
and immediately writes `Joined(name)` to the peer; the event loop goes on
to the next event at once. -/
theorem join_request_spec (now t : Nat) (s : ChatSession) (name : String)
    (replies : List (Option (List String))) (events : List Event) :
    (handleFrame now s (some (ChatRequest.join name))).1.room = name ∧
    (handleFrame now s (some (ChatRequest.join name))).2.1.sends
        = [RegistryMsg.join s.id name] ∧
    (handleFrame now s (some (ChatRequest.join name))).2.1.writes
        = [ChatResponse.joined name] ∧
    (handleFrame now s (some (ChatRequest.join name))).2.2 = false ∧
    (handleFrame now s (some (ChatRequest.join name))).1.stopped = s.stopped ∧
    (s.stopped = false →
      (runEvents s replies (Event.frame t (some (ChatRequest.join name)) :: events)).1
        = Action.procFrame t (some (ChatRequest.join name))
            :: (runEvents { s with room := name } replies events).1) := by
  refine ⟨rfl, rfl, rfl, rfl, rfl, ?_⟩
  intro h
  simp [runEvents, h, handleFrame]

/-- Witness for `join_request_spec` on a live session. -/
theorem join_request_spec_witness :
    (runEvents { id := 2, hb := 0, room := "Main", stopped := false } []
        [Event.frame 1 (some (ChatRequest.join "general"))]).1
      = [Action.procFrame 1 (some (ChatRequest.join "general"))] := by
  have h := (join_request_spec 1 1
    { id := 2, hb := 0, room := "Main", stopped := false } "general" [] []).2.2.2.2.2 rfl
  rw [h]
  rfl

/-- C5: on connect the session registers by sending `server::Connect`, and
the reply is consumed before any other event; on success the returned id is
stored and the session keeps running; on failure it stops at once — the
following event loop processes nothing and no retry happens. -/
theorem connect_registration_spec (now : Nat) (res : Option Nat)
    (replies : List (Option (List String))) (events : List Event) :
    (startedStep now res).1 = [RegistryMsg.connect] ∧
    (∀ n, res = some n →
      (startedStep now res).2.id = n ∧ (startedStep now res).2.stopped = false) ∧
    (res = none →
      (startedStep now res).2.stopped = true ∧
      (sessionRun now res replies events).1 = []) := by
  refine ⟨rfl, ?_, ?_⟩
  · rintro n rfl; exact ⟨rfl, rfl⟩
  · rintro rfl
    refine ⟨rfl, ?_⟩
    cases events <;>
      simp [sessionRun, runEvents, startedStep, connectReplyCont, ChatSession.new]

/-- Witness for `connect_registration_spec` on both registration outcomes. -/
theorem connect_registration_spec_witness :
    (startedStep 0 (some 42)).2.id = 42 ∧
    (sessionRun 0 none [] [Event.tick 1]).1 = [] :=
  ⟨((connect_registration_spec 0 (some 42) [] []).2.1 42 rfl).1,
   ((connect_registration_spec 0 none [] [Event.tick 1]).2.2 rfl).2⟩

/-- C6: an inbound item that failed to decode stops the session actor: the
catch-all arm sets the stop flag with no registry message and no write, and
the event loop processes nothing after that frame. -/
theorem decode_failure_stops_session (now t : Nat) (s : ChatSession)
    (replies : List (Option (List String))) (events : List Event) :
    (handleFrame now s none).1.stopped = true ∧
    (handleFrame now s none).2.1 = { sends := [], writes := [] } ∧
    (s.stopped = false →
      (runEvents s replies (Event.frame t none :: events)).1
        = [Action.procFrame t none]) := by
  refine ⟨rfl, rfl, ?_⟩
  intro h
  cases events <;> simp [runEvents, h, handleFrame]

/-- Witness for `decode_failure_stops_session`: a malformed frame followed
by a well-formed one — only the malformed one is processed. -/
theorem decode_failure_stops_session_witness :
    (runEvents { id := 1, hb := 0, room := "Main", stopped := false } []
        [Event.frame 2 none, Event.frame 3 (some ChatRequest.ping)]).1
      = [Action.procFrame 2 none] :=
  (decode_failure_stops_session 2 2
    { id := 1, hb := 0, room := "Main", stopped := false }
    [] [Event.frame 3 (some ChatRequest.ping)]).2.2 rfl

/-- C7: the failing input evaluated — on the server's `Ping` response the
client's stream handler prints nothing and stops the actor (the `Ping`
variant falls to the catch-all `ctx.stop()` arm), instead of keeping the
connection open; an ordinary room message, by contrast, is printed without
stopping. -/
theorem client_stops_on_server_ping :
    clientHandleResponse (some ChatResponse.ping) = ([], true) ∧
    clientHandleResponse (some (ChatResponse.message "hi"))
      = (["message: hi"], false) :=
  ⟨rfl, rfl⟩

/-- C8: counterexample — the non-empty operator line "/foo" is neither
`/list` nor `/join <name>`, so the claim would have it sent as a
`SendMessage` frame; the client instead prints an error and sends no frame
at all. -/
theorem unknown_slash_command_sends_nothing_cex :
    (clientCommand "/foo").1 = [] ∧
    (clientCommand "/foo").1 ≠ [ChatRequest.message "/foo"] ∧
    (clientCommand "/foo").2 = ["!!! unkown command"] := by
  decide

/-- A string that starts with a given character has a non-empty character
list. -/
theorem startsWithChar_data_not_isEmpty (s : String) (c : Char)
    (h : startsWithChar s c = true) : s.data.isEmpty = false := by
  cases hd : s.data with
  | nil => simp [startsWithChar, hd] at h
  | cons a as => simp [hd]

/-- C8 (amended): for every line of operator input — an all-whitespace line
sends nothing; a line whose trimmed text does not start with `/` is sent as
a `Message` carrying the trimmed text; otherwise the trimmed line is split
at the first space: first word `/list` sends a `List` request, first word
`/join` with a remainder sends `Join(remainder)`, and `/join` without a
remainder, or any other first word, prints only a console diagnostic and
sends no frame. -/
theorem clientCommand_spec (cmd : String) :
    ((rustTrim cmd).data = [] → clientCommand cmd = ([], [])) ∧
    ((rustTrim cmd).data ≠ [] → startsWithChar (rustTrim cmd) '/' = false →
      clientCommand cmd = ([ChatRequest.message (rustTrim cmd)], [])) ∧
    (startsWithChar (rustTrim cmd) '/' = true →
      ((splitn2 (rustTrim cmd)).headD "" = "/list" →
        clientCommand cmd = ([ChatRequest.list], [])) ∧
      (∀ name, splitn2 (rustTrim cmd) = ["/join", name] →
        clientCommand cmd = ([ChatRequest.join name], [])) ∧
      (splitn2 (rustTrim cmd) = ["/join"] →
        clientCommand cmd = ([], ["!!! room name is required"])) ∧
      ((splitn2 (rustTrim cmd)).headD "" ≠ "/list" →
        (splitn2 (rustTrim cmd)).headD "" ≠ "/join" →
        clientCommand cmd = ([], ["!!! unkown command"]))) := by
  refine ⟨?_, ?_, ?_⟩
  · intro h
    simp [clientCommand, h]
  · intro h1 h2
    simp [clientCommand, h1, h2]
  · intro hs
    have hne := startsWithChar_data_not_isEmpty (rustTrim cmd) '/' hs
    refine ⟨?_, ?_, ?_, ?_⟩
    · intro h
      rw [List.headD_eq_head?] at h
      simp [clientCommand, hne, hs, h]
    · intro name h
      simp [clientCommand, hne, hs, h]
    · intro h
      simp [clientCommand, hne, hs, h]
    · intro h1 h2
      rw [List.headD_eq_head?] at h1 h2
      simp [clientCommand, hne, hs, h1, h2]

/-- Witness for `clientCommand_spec`: an ordinary message line and a
`/join` line with trailing whitespace. -/
theorem clientCommand_spec_witness :
    clientCommand " hello there " = ([ChatRequest.message "hello there"], []) ∧
    clientCommand "/join general " = ([ChatRequest.join "general"], []) := by
  constructor
  · have h := (clientCommand_spec " hello there ").2.1 (by decide) (by decide)
    have e : rustTrim " hello there " = "hello there" := by decide
    rw [e] at h
    exact h
  · exact ((clientCommand_spec "/join general ").2.2 (by decide)).2.1 "general" (by decide)

/-- C9: every stop path runs the stopping hook, which sends `Disconnect`
for the session's current `id`; the id starts at the sentinel 0 and no
handler other than a successful registration reply ever changes it, so a
session that stops before registering sends `Disconnect` for id 0. -/
theorem stopping_disconnect_current_id (now t : Nat) (s : ChatSession)
    (msg : Option ChatRequest) (res : Option (List String)) :
    stoppingEffects s = { sends := [RegistryMsg.disconnect s.id], writes := [] } ∧
    (ChatSession.new now).id = 0 ∧
    stoppingEffects (ChatSession.new now)
      = { sends := [RegistryMsg.disconnect 0], writes := [] } ∧
    (handleFrame t s msg).1.id = s.id ∧
    (hbTick t s).1.id = s.id ∧
    (listReplyCont s res).1.id = s.id ∧
    (connectReplyCont s none).id = s.id ∧
    (∀ n, (connectReplyCont s (some n)).id = n) := by
  refine ⟨rfl, rfl, rfl, ?_, ?_, ?_, rfl, fun n => rfl⟩
  · cases msg with
    | none => rfl
    | some req => cases req <;> rfl
  · by_cases h : 10 < t - s.hb <;> simp [hbTick, h]
  · cases res <;> rfl

/-- C10: when the liveness timeout expires, the heartbeat handler sends
`Disconnect` and stops the actor, and the stopping hook that then runs
sends `Disconnect` for the same id again — two identical disconnect
notifications in total. -/
theorem timeout_double_disconnect (now : Nat) (s : ChatSession)
    (h : 10 < now - s.hb) :
    (hbTick now s).1.stopped = true ∧
    (hbTick now s).2.sends ++ (stoppingEffects (hbTick now s).1).sends
      = [RegistryMsg.disconnect s.id, RegistryMsg.disconnect s.id] := by
  simp [hbTick, h, stoppingEffects]

/-- Witness for `timeout_double_disconnect` at a timed-out firing. -/
theorem timeout_double_disconnect_witness :
    (hbTick 20 { id := 7, hb := 0, room := "Main", stopped := false }).2.sends
        ++ (stoppingEffects
              (hbTick 20 { id := 7, hb := 0, room := "Main", stopped := false }).1).sends
      = [RegistryMsg.disconnect 7, RegistryMsg.disconnect 7] :=
  (timeout_double_disconnect 20 { id := 7, hb := 0, room := "Main", stopped := false }
    (by decide)).2

end TcpChat
